import Mathlib

/-!
Shallow embedding of the message-dispatch path of the go-fcm push client
(src/client.go), together with models of the repository files that are not
part of the provided source (message.go, response.go, retry.go), which are
reconstructed from the specification where marked.

Conventions of the embedding:
  - Go `(value, error)` returns become pairs with `Option String` errors.
  - A runtime panic (nil-pointer dereference, failed type assertion) is an
    outer `Option.none` on the embedded function's result.
  - The external SDK collaborator (firebase messaging client) and the HTTP
    transport are parameters: their outcomes are supplied as arguments.
-/

namespace Fcm

/-- A Go `interface\x7b\x7d` value stored in the message data map: either a string
or some non-string value (only its stringness matters to the code). -/
inductive GoValue where
  | str (s : String)
  | other (tag : Nat)
deriving DecidableEq

/-- Whether a data value is a string (the `v.(string)` type assertion in
sendByApp succeeds exactly on these). -/
def GoValue.isStr : GoValue → Bool
  | .str _ => true
  | .other _ => false

/-- Modelled from the spec: the optional notification payload of a message
(title, body); the Notification type lives in message.go, which is not in
src/. -/
structure Notification where
  title : String
  body : String
deriving DecidableEq

/-- Modelled from the spec: the Message structure (message.go is not in src/):
an ordered sequence of recipient registration identifiers, optional topic and
condition addressing, an optional notification payload, and a data payload
mapping string keys to values. -/
structure Message where
  registrationIDs : List String
  topic : String
  condition : String
  notification : Option Notification
  data : List (String × GoValue)

/-- Modelled from the spec: message validation (message.go is not in src/).
Rejects a message lacking any deliverable target: no recipients, no topic and
no condition.  Returns the validation error, or `none` when the message is
well formed. -/
def Message.Validate (m : Message) : Option String :=
  if m.registrationIDs = [] ∧ m.topic = "" ∧ m.condition = "" then
    some "fcm: invalid message: no target"
  else
    none

/-- Modelled from the spec: one per-recipient outcome in a multicast Response
(response.go is not in src/).  Field names follow the assignment sites in
sendByApp: `error` and `messageID` are set on success entries, `error` and
`errorResponseCode` on failure entries. -/
structure Result where
  error : Option String
  messageID : String
  errorResponseCode : String
deriving DecidableEq

/-- Modelled from the spec: the uniform Response structure (response.go is not
in src/): success count, failure count, ordered per-recipient results, a
top-level error, and the provider-assigned identifier for single-recipient
sends (the field sendByApp assigns the SDK message id to, named
`errorResponseCode` at its assignment site in src/client.go line 243). -/
structure Response where
  success : Nat
  failure : Nat
  results : List Result
  error : Option String
  errorResponseCode : String
deriving DecidableEq

/-- The zero value produced by `new(Response)` in Go. -/
def Response.empty : Response :=
  { success := 0, failure := 0, results := [], error := none, errorResponseCode := "" }

/-- The error taxonomy of the client.  `connectionError` and `serverError`
are the retry.go error kinds constructed in src/client.go lines 184 and 191;
`plainError` is the bare `fmt.Errorf` error of line 193; the remaining kinds
tag validation, marshalling and SDK errors so all paths share one error
type. -/
inductive FcmError where
  | connectionError (msg : String)
  | serverError (msg : String)
  | plainError (msg : String)
  | validationError (msg : String)
  | marshalError (msg : String)
  | sdkError (msg : String)
deriving DecidableEq

/-- Modelled from the spec: retry eligibility (retry.go is not in src/).
Connection-level and server-level (5xx) errors are retry-eligible; every
other error is surfaced immediately. -/
def retryEligible : FcmError → Bool
  | .connectionError _ => true
  | .serverError _ => true
  | _ => false

/-- The outcome of one HTTP attempt, supplied by the environment: either the
request yielded no response (`client.Do` returned an error whose text is
`errMsg`), or a response arrived with a status code, a status text, and - for
bodies that are consulted - the result of JSON-decoding the body into a
Response (`none` means the body does not decode). -/
inductive NetOutcome where
  | noResponse (errMsg : String)
  | withStatus (status : Nat) (statusText : String) (decoded : Option Response)

/-- `http.StatusOK`. -/
def httpStatusOK : Nat := 200

/-- `http.StatusInternalServerError`. -/
def httpStatusInternalServerError : Nat := 500

/-- Embeds `Client.send` (src/client.go lines 168-203), the direct HTTP
transport.  `httpClient` is the `c.client` handle (`none` embeds a nil
`*http.Client`, whose use in `c.client.Do` dereferences nil: outer `none`).
On a transport failure the error text is wrapped as a connectionError; a
status of 500 or more yields a serverError; any other status different from
200 yields the plain formatted error; on 200 the decoded body is returned. -/
def send (httpClient : Option Unit) (outcome : NetOutcome) :
    Option (Except FcmError Response) :=
  match httpClient with
  | none => none
  | some _ =>
    match outcome with
    | .noResponse errMsg => some (.error (.connectionError errMsg))
    | .withStatus status statusText decoded =>
      if status ≠ httpStatusOK then
        if httpStatusInternalServerError ≤ status then
          some (.error (.serverError (toString status ++ " error: " ++ statusText)))
        else
          some (.error (.plainError (toString status ++ " error: " ++ statusText)))
      else
        match decoded with
        | none => some (.error (.plainError "json: decode error"))
        | some r => some (.ok r)

/-- One per-recipient SDK send outcome (`messaging.SendResponse`): an error
(nil on success) and a message identifier. -/
structure SendResponse where
  error : Option String
  messageID : String
deriving DecidableEq

/-- The SDK batch outcome (`messaging.BatchResponse`): the provider's success
count and one SendResponse per target. -/
structure BatchResponse where
  successCount : Nat
  responses : List SendResponse
deriving DecidableEq

/-- The SDK environment of one sendByApp call: the outcome of
`c.app.Messaging(ctx)` when the messaging handle must be created, the
`(string, error)` outcome of a single `msgClient.Send`, and the
`(*BatchResponse, error)` outcome of `msgClient.SendMulticast`. -/
structure SdkEnv where
  mkMessaging : Except String Unit
  single : String × Option String
  multi : Option BatchResponse × Option String

/-- Embeds the data-map conversion of src/client.go lines 215-218: each value
passes through the unchecked type assertion `v.(string)`; a non-string value
panics (`none`). -/
def convertData : List (String × GoValue) → Option (List (String × String))
  | [] => some []
  | (k, v) :: rest =>
    match v with
    | .str s =>
      match convertData rest with
      | none => none
      | some tail => some ((k, s) :: tail)
    | .other _ => none

/-- The per-entry Result builder of the multicast loop (src/client.go lines
269-281): a success entry carries the message identifier; a failure entry
carries the error and its message text in `errorResponseCode`. -/
def resultOfSendResponse (sr : SendResponse) : Result :=
  match sr.error with
  | none => { error := none, messageID := sr.messageID, errorResponseCode := "" }
  | some e => { error := some e, messageID := "", errorResponseCode := e }

/-- Embeds `Client.sendByApp` (src/client.go lines 206-285).  `msgClientCached`
says whether `c.msgClient` is already non-nil.  The Go return `(res, err)`
becomes `(Option Response × Option String)`; the outer `none` is a runtime
panic (the `v.(string)` assertion on a non-string data value, or the
dereference of a nil `*BatchResponse` in the multicast branch). -/
def sendByApp (msgClientCached : Bool) (env : SdkEnv) (msg : Message) :
    Option (Option Response × Option String) :=
  match (if msgClientCached then Except.ok () else env.mkMessaging) with
  | .error e => some (none, some e)
  | .ok _ =>
    match convertData msg.data with
    | none => none
    | some _converted =>
      if msg.registrationIDs.length > 0 ∧ msg.registrationIDs.length < 2 then
        let r := env.single.1
        let err := env.single.2
        let res : Response :=
          { success := if err.isSome then 0 else 1
            failure := if err.isSome then 1 else 0
            results := []
            error := err
            errorResponseCode := r }
        some (some res, err)
      else
        let r := env.multi.1
        let err := env.multi.2
        match r with
        | none => none
        | some br =>
          let res : Response :=
            if err.isSome then
              { success := 0, failure := msg.registrationIDs.length
                results := br.responses.map resultOfSendResponse
                error := none, errorResponseCode := "" }
            else
              { success := br.successCount, failure := 0
                results := br.responses.map resultOfSendResponse
                error := none, errorResponseCode := "" }
          some (some res, err)

/-- `DefaultEndpoint` of src/client.go line 18. -/
def DefaultEndpoint : String := "https://fcm.googleapis.com/fcm/send"

/-- The Client configuration (src/client.go lines 38-45): API key, the HTTP
client handle (`none` embeds a nil `*http.Client`), the endpoint, whether a
credential-based firebase app is configured, and whether the messaging handle
is already cached.  The timeout and the handles' internals are environment
concerns and are not part of the embedding. -/
structure Client where
  apiKey : String
  httpClient : Option Unit
  endpoint : String
  app : Bool
  msgClient : Bool

/-- Embeds `NewClient` (src/client.go lines 49-67), without functional
options: an empty API key fails with ErrInvalidAPIKey; otherwise the client
has a fresh HTTP handle, the default endpoint and no app. -/
def NewClient (apiKey : String) : Except String Client :=
  if apiKey = "" then
    .error "client API Key is invalid"
  else
    .ok { apiKey := apiKey, httpClient := some (), endpoint := DefaultEndpoint
          app := false, msgClient := false }

/-- Embeds `NewClientWithCredentials` (src/client.go lines 71-97), without
functional options.  `appInit` is the outcome of `firebase.NewApp`.  An empty
path fails with ErrInvalidCredentialsPath; an app-initialization failure is
propagated; otherwise the client is built with a nil HTTP handle
(`client: nil`, line 84), the default endpoint and the app set. -/
def NewClientWithCredentials (path : String) (appInit : Except String Unit) :
    Except String Client :=
  if path = "" then
    .error "credentials path is invalid"
  else
    match appInit with
    | .error e => .error e
    | .ok _ =>
      .ok { apiKey := "", httpClient := none, endpoint := DefaultEndpoint
            app := true, msgClient := false }

/-- Modelled from the spec: the bounded-retry loop (the `retry` helper of
retry.go is not in src/).  `retryAux op k fuel` runs attempts `k, k+1, ...`
with `fuel` attempts still allowed; a successful attempt or a
non-retry-eligible error stops immediately, exhausted attempts return the
last error.  The result carries the total number of attempts performed; an
outer `none` propagates a panic of the operation. -/
def retryAux (op : Nat → Option (Except FcmError Response)) :
    Nat → Nat → Option (Except FcmError Response × Nat)
  | k, 0 => some (.error (.plainError "retry: no attempts allowed"), k)
  | k, fuel + 1 =>
    match op k with
    | none => none
    | some (.ok r) => some (.ok r, k + 1)
    | some (.error e) =>
      if fuel = 0 then
        some (.error e, k + 1)
      else if retryEligible e then
        retryAux op (k + 1) fuel
      else
        some (.error e, k + 1)

/-- Modelled from the spec: `retry(op, maxAttempts)` executes `op` up to
`maxAttempts` times; `maxAttempts ≤ 0 or 1` means exactly one attempt. -/
def retry (op : Nat → Option (Except FcmError Response)) (maxAttempts : Int) :
    Option (Except FcmError Response × Nat) :=
  retryAux op 0 (if maxAttempts ≤ 1 then 1 else maxAttempts.toNat)

/-- Observable steps of a send call, in the order the code performs them:
message validation, JSON marshalling of the message, one HTTP attempt
(`c.send`), or the SDK-mediated call (`c.sendByApp`). -/
inductive Event where
  | validate
  | marshal
  | httpAttempt
  | sdkCall
deriving DecidableEq

/-- The environment of one no-retry send: the outcome of `json.Marshal(msg)`
(the bytes themselves are irrelevant to the control flow), the outcome of the
single HTTP attempt, and the SDK environment. -/
structure Env where
  marshal : Except String Unit
  outcome : NetOutcome
  sdk : SdkEnv

/-- Embeds `Client.SendWithContext` (src/client.go lines 103-120),
instrumented with the trace of observable steps.  Validation runs first; a
client with an app dispatches to sendByApp; otherwise the message is
marshalled and sent over the direct HTTP transport.  The outer `none` is a
runtime panic of the inner call. -/
def SendWithContext (c : Client) (env : Env) (msg : Message) :
    Option ((Option Response × Option FcmError) × List Event) :=
  match msg.Validate with
  | some e => some ((none, some (.validationError e)), [.validate])
  | none =>
    if c.app then
      match sendByApp c.msgClient env.sdk msg with
      | none => none
      | some (r, err) =>
        some ((r, err.map FcmError.sdkError), [.validate, .sdkCall])
    else
      match env.marshal with
      | .error e => some ((none, some (.marshalError e)), [.validate, .marshal])
      | .ok _ =>
        match send c.httpClient env.outcome with
        | none => none
        | some (.ok r) => some ((some r, none), [.validate, .marshal, .httpAttempt])
        | some (.error e) => some ((none, some e), [.validate, .marshal, .httpAttempt])

/-- Embeds `Client.Send` (src/client.go lines 125-130): a timeout context is
derived and the call delegates to SendWithContext. -/
def Send (c : Client) (env : Env) (msg : Message) :
    Option ((Option Response × Option FcmError) × List Event) :=
  SendWithContext c env msg

/-- Embeds `Client.SendWithRetryWithContext` (src/client.go lines 141-165),
instrumented with the trace of observable steps.  Validation and marshalling
run once, before the retry loop; each retry attempt executes `c.send` with a
fresh per-attempt outcome `outcomes k`.  On a final error the response is
nil; otherwise the last attempt's response is returned. -/
def SendWithRetryWithContext (c : Client) (marshal : Except String Unit)
    (outcomes : Nat → NetOutcome) (retryAttempts : Int) (msg : Message) :
    Option ((Option Response × Option FcmError) × List Event) :=
  match msg.Validate with
  | some e => some ((none, some (.validationError e)), [.validate])
  | none =>
    match marshal with
    | .error e => some ((none, some (.marshalError e)), [.validate, .marshal])
    | .ok _ =>
      match retry (fun k => send c.httpClient (outcomes k)) retryAttempts with
      | none => none
      | some (.ok r, n) =>
        some ((some r, none), .validate :: .marshal :: List.replicate n .httpAttempt)
      | some (.error e, n) =>
        some ((none, some e), .validate :: .marshal :: List.replicate n .httpAttempt)

/-- Embeds `Client.SendWithRetry` (src/client.go lines 134-136): delegates to
SendWithRetryWithContext with a background context. -/
def SendWithRetry (c : Client) (marshal : Except String Unit)
    (outcomes : Nat → NetOutcome) (retryAttempts : Int) (msg : Message) :
    Option ((Option Response × Option FcmError) × List Event) :=
  SendWithRetryWithContext c marshal outcomes retryAttempts msg

/-! ## Helper lemmas characterizing the embedded operations -/

/-- The data-map conversion succeeds exactly when every data value is a
string. -/
theorem convertData_isSome (l : List (String × GoValue)) :
    (convertData l).isSome = l.all (fun kv => kv.2.isStr) := by
  induction l with
  | nil => rfl
  | cons kv rest ih =>
    obtain ⟨k, v⟩ := kv
    cases v with
    | str s =>
      simp only [convertData, List.all_cons]
      rw [← ih]
      cases convertData rest <;> simp [GoValue.isStr]
    | other t => simp [convertData, List.all_cons, GoValue.isStr]

/-- Under a cached or successfully created messaging handle, the
initialization match of sendByApp reduces to success. -/
theorem sendByApp_init_ok (cached : Bool) (env : SdkEnv)
    (hmk : cached = true ∨ env.mkMessaging = Except.ok ()) :
    (if cached then Except.ok () else env.mkMessaging) = Except.ok () := by
  rcases hmk with h | h
  · simp [h]
  · cases cached <;> simp [h]

/-- sendByApp on a single-recipient message: the outcome of the provider's
single send is normalized into counts, the top-level error, and the
provider-assigned identifier field. -/
theorem sendByApp_single (cached : Bool) (env : SdkEnv) (msg : Message)
    (hmk : cached = true ∨ env.mkMessaging = Except.ok ())
    (hdata : msg.data.all (fun kv => kv.2.isStr) = true)
    (hlen : msg.registrationIDs.length = 1) :
    sendByApp cached env msg =
      some (some { success := if env.single.2.isSome then 0 else 1
                   failure := if env.single.2.isSome then 1 else 0
                   results := []
                   error := env.single.2
                   errorResponseCode := env.single.1 }, env.single.2) := by
  obtain ⟨cd, hcd⟩ : ∃ cd, convertData msg.data = some cd := by
    have h := convertData_isSome msg.data
    rw [hdata] at h
    exact Option.isSome_iff_exists.mp h
  have hcond : msg.registrationIDs.length > 0 ∧ msg.registrationIDs.length < 2 := by omega
  simp only [sendByApp, sendByApp_init_ok cached env hmk, hcd, if_pos hcond]

/-- sendByApp on a multicast message (recipient count different from one)
whose provider call yields a non-nil batch response: the counts branch on the
call-level error and the results are built from the batch entries. -/
theorem sendByApp_multicast (cached : Bool) (env : SdkEnv) (msg : Message)
    (br : BatchResponse)
    (hmk : cached = true ∨ env.mkMessaging = Except.ok ())
    (hdata : msg.data.all (fun kv => kv.2.isStr) = true)
    (hlen : msg.registrationIDs.length ≠ 1)
    (hbr : env.multi.1 = some br) :
    sendByApp cached env msg =
      some (some (if env.multi.2.isSome then
              { success := 0, failure := msg.registrationIDs.length
                results := br.responses.map resultOfSendResponse
                error := none, errorResponseCode := "" }
            else
              { success := br.successCount, failure := 0
                results := br.responses.map resultOfSendResponse
                error := none, errorResponseCode := "" }), env.multi.2) := by
  obtain ⟨cd, hcd⟩ : ∃ cd, convertData msg.data = some cd := by
    have h := convertData_isSome msg.data
    rw [hdata] at h
    exact Option.isSome_iff_exists.mp h
  have hcond : ¬(msg.registrationIDs.length > 0 ∧ msg.registrationIDs.length < 2) := by
    omega
  simp only [sendByApp, sendByApp_init_ok cached env hmk, hcd, if_neg hcond, hbr]

/-- sendByApp on a multicast message whose provider call yields a nil batch
response (the realistic shape of a call-level SendMulticast failure) panics:
the Results loop dereferences the nil `*BatchResponse`. -/
theorem sendByApp_multicast_nil (cached : Bool) (env : SdkEnv) (msg : Message)
    (hmk : cached = true ∨ env.mkMessaging = Except.ok ())
    (hdata : msg.data.all (fun kv => kv.2.isStr) = true)
    (hlen : msg.registrationIDs.length ≠ 1)
    (hbr : env.multi.1 = none) :
    sendByApp cached env msg = none := by
  obtain ⟨cd, hcd⟩ : ∃ cd, convertData msg.data = some cd := by
    have h := convertData_isSome msg.data
    rw [hdata] at h
    exact Option.isSome_iff_exists.mp h
  have hcond : ¬(msg.registrationIDs.length > 0 ∧ msg.registrationIDs.length < 2) := by
    omega
  simp only [sendByApp, sendByApp_init_ok cached env hmk, hcd, if_neg hcond, hbr]

/-- sendByApp panics on the unchecked `v.(string)` assertion when some data
value is not a string. -/
theorem sendByApp_data_panic (cached : Bool) (env : SdkEnv) (msg : Message)
    (hmk : cached = true ∨ env.mkMessaging = Except.ok ())
    (hdata : msg.data.all (fun kv => kv.2.isStr) = false) :
    sendByApp cached env msg = none := by
  have hconv : convertData msg.data = none := by
    have h := convertData_isSome msg.data
    rw [hdata] at h
    exact Option.not_isSome_iff_eq_none.mp (by simp [h])
  simp only [sendByApp, sendByApp_init_ok cached env hmk, hconv]

/-- The direct HTTP transport on a status-200 response returns the decoded
body. -/
theorem send_200 (statusText : String) (r : Response) :
    send (some ()) (.withStatus 200 statusText (some r)) = some (.ok r) := by
  simp [send, httpStatusOK]

/-- The direct HTTP transport on a 5xx status returns a serverError. -/
theorem send_5xx (status : Nat) (statusText : String) (d : Option Response)
    (h : 500 ≤ status) :
    send (some ()) (.withStatus status statusText d) =
      some (.error (.serverError (toString status ++ " error: " ++ statusText))) := by
  have h200 : status ≠ httpStatusOK := by simp only [httpStatusOK]; omega
  simp only [send, if_pos h200]
  rw [if_pos (by simpa [httpStatusInternalServerError] using h)]

/-- The direct HTTP transport on a non-200 sub-500 status returns the plain
formatted error. -/
theorem send_other_status (status : Nat) (statusText : String) (d : Option Response)
    (h200 : status ≠ 200) (h500 : status < 500) :
    send (some ()) (.withStatus status statusText d) =
      some (.error (.plainError (toString status ++ " error: " ++ statusText))) := by
  have h1 : status ≠ httpStatusOK := by simpa [httpStatusOK] using h200
  simp only [send, if_pos h1]
  rw [if_neg (by simp only [httpStatusInternalServerError]; omega)]

/-- The direct HTTP transport wraps a transport-layer failure as a
connectionError. -/
theorem send_no_response (errMsg : String) :
    send (some ()) (.noResponse errMsg) = some (.error (.connectionError errMsg)) := rfl

/-- The retry fuel is always positive: exactly one unit for maxAttempts of
one or less, `maxAttempts` units otherwise. -/
theorem retry_fuel_pos (m : Int) : ∃ f, (if m ≤ 1 then 1 else m.toNat) = f + 1 := by
  split
  · exact ⟨0, rfl⟩
  · refine ⟨m.toNat - 1, ?_⟩
    omega

/-- An operation that always fails with a retry-eligible serverError exhausts
the fuel: with `fuel + 1` attempts allowed starting at attempt `k`, all
`fuel + 1` attempts run and the error of the last one is returned. -/
theorem retryAux_always_server (op : Nat → Option (Except FcmError Response))
    (msgs : Nat → String)
    (hop : ∀ k, op k = some (.error (.serverError (msgs k)))) :
    ∀ fuel k, retryAux op k (fuel + 1) =
      some (.error (.serverError (msgs (k + fuel))), k + fuel + 1) := by
  intro fuel
  induction fuel with
  | zero =>
    intro k
    simp [retryAux, hop k]
  | succ f ih =>
    intro k
    have hne : ¬(f + 1 = 0) := by omega
    have hstep : retryAux op k (f + 1 + 1) = retryAux op (k + 1) (f + 1) := by
      simp [retryAux, hop k, hne, retryEligible]
    rw [hstep, ih (k + 1)]
    rw [show k + 1 + f = k + (f + 1) by omega]

/-- An operation that panics on its first call makes the retry loop panic. -/
theorem retryAux_first_panic (op : Nat → Option (Except FcmError Response))
    (k fuel : Nat) (hop : op k = none) :
    retryAux op k (fuel + 1) = none := by
  simp [retryAux, hop]

/-- A non-retry-eligible error on the first attempt stops the loop after
exactly one attempt, whatever fuel remains. -/
theorem retryAux_not_eligible (op : Nat → Option (Except FcmError Response))
    (e : FcmError) (k fuel : Nat)
    (hop : op k = some (.error e)) (he : retryEligible e = false) :
    retryAux op k (fuel + 1) = some (.error e, k + 1) := by
  cases fuel with
  | zero => simp [retryAux, hop]
  | succ f =>
    have hne : ¬(f + 1 = 0) := by omega
    simp [retryAux, hop, if_neg hne, he]

/-- A non-retry-eligible error stops the loop at the attempt where it
occurs: if attempts `k` through `k + j - 1` fail with retry-eligible errors
and attempt `k + j` fails with a non-retry-eligible error, then with more
than `j` units of fuel the loop performs exactly `j + 1` attempts from `k`
and returns that error. -/
theorem retryAux_stops_not_eligible (op : Nat → Option (Except FcmError Response))
    (e : FcmError) (he : retryEligible e = false) :
    ∀ (j k fuel : Nat),
      (∀ i, i < j → ∃ ei, op (k + i) = some (.error ei) ∧ retryEligible ei = true) →
      op (k + j) = some (.error e) → j < fuel →
      retryAux op k fuel = some (.error e, k + j + 1) := by
  intro j
  induction j with
  | zero =>
    intro k fuel hpre hj hfuel
    cases fuel with
    | zero => omega
    | succ f =>
      have hj0 : op k = some (.error e) := by simpa using hj
      have h := retryAux_not_eligible op e k f hj0 he
      simpa using h
  | succ j ih =>
    intro k fuel hpre hj hfuel
    cases fuel with
    | zero => omega
    | succ f =>
      obtain ⟨e0, he0, helig0⟩ := hpre 0 (by omega)
      have he0k : op k = some (.error e0) := by simpa using he0
      have hfne : ¬(f = 0) := by omega
      have hstep : retryAux op k (f + 1) = retryAux op (k + 1) f := by
        simp [retryAux, he0k, hfne, helig0]
      rw [hstep]
      have hpre2 : ∀ i, i < j →
          ∃ ei, op (k + 1 + i) = some (.error ei) ∧ retryEligible ei = true := by
        intro i hi
        obtain ⟨ei, h1, h2⟩ := hpre (i + 1) (by omega)
        refine ⟨ei, ?_, h2⟩
        rw [show k + 1 + i = k + (i + 1) by omega]
        exact h1
      have hj2 : op (k + 1 + j) = some (.error e) := by
        rw [show k + 1 + j = k + (j + 1) by omega]
        exact hj
      rw [ih (k + 1) f hpre2 hj2 (by omega)]
      rw [show k + 1 + j + 1 = k + (j + 1) + 1 by omega]

/-- Every completed SendWithContext call has one of four traces, each
beginning with validation. -/
theorem SendWithContext_trace (c : Client) (env : Env) (msg : Message)
    (out : Option Response × Option FcmError) (trace : List Event)
    (h : SendWithContext c env msg = some (out, trace)) :
    trace = [.validate] ∨ trace = [.validate, .sdkCall] ∨
    trace = [.validate, .marshal] ∨ trace = [.validate, .marshal, .httpAttempt] := by
  unfold SendWithContext at h
  split at h
  · obtain ⟨-, ht⟩ := Option.some.injEq _ _ ▸ Prod.mk.injEq _ _ _ _ ▸ (Option.some.inj h)
    exact Or.inl ht.symm
  · split at h
    · split at h
      · exact absurd h (by simp)
      · obtain ⟨-, ht⟩ := Prod.mk.injEq _ _ _ _ ▸ (Option.some.inj h)
        exact Or.inr (Or.inl ht.symm)
    · split at h
      · obtain ⟨-, ht⟩ := Prod.mk.injEq _ _ _ _ ▸ (Option.some.inj h)
        exact Or.inr (Or.inr (Or.inl ht.symm))
      · split at h
        · exact absurd h (by simp)
        · obtain ⟨-, ht⟩ := Prod.mk.injEq _ _ _ _ ▸ (Option.some.inj h)
          exact Or.inr (Or.inr (Or.inr ht.symm))
        · obtain ⟨-, ht⟩ := Prod.mk.injEq _ _ _ _ ▸ (Option.some.inj h)
          exact Or.inr (Or.inr (Or.inr ht.symm))

/-- Every completed SendWithRetryWithContext call has a trace that begins
with validation and contains it exactly once: either the bare validation
trace, validation plus marshalling, or validation, marshalling and one
httpAttempt per retry attempt. -/
theorem SendWithRetryWithContext_trace (c : Client) (marshal : Except String Unit)
    (outcomes : Nat → NetOutcome) (n : Int) (msg : Message)
    (out : Option Response × Option FcmError) (trace : List Event)
    (h : SendWithRetryWithContext c marshal outcomes n msg = some (out, trace)) :
    trace = [.validate] ∨ trace = [.validate, .marshal] ∨
    ∃ k, trace = .validate :: .marshal :: List.replicate k .httpAttempt := by
  unfold SendWithRetryWithContext at h
  split at h
  · obtain ⟨-, ht⟩ := Prod.mk.injEq _ _ _ _ ▸ (Option.some.inj h)
    exact Or.inl ht.symm
  · split at h
    · obtain ⟨-, ht⟩ := Prod.mk.injEq _ _ _ _ ▸ (Option.some.inj h)
      exact Or.inr (Or.inl ht.symm)
    · split at h
      · exact absurd h (by simp)
      · obtain ⟨-, ht⟩ := Prod.mk.injEq _ _ _ _ ▸ (Option.some.inj h)
        exact Or.inr (Or.inr ⟨_, ht.symm⟩)
      · obtain ⟨-, ht⟩ := Prod.mk.injEq _ _ _ _ ▸ (Option.some.inj h)
        exact Or.inr (Or.inr ⟨_, ht.symm⟩)

/-! ## Concrete fixtures -/

/-- A single-recipient message with a string-valued data payload. -/
def msgSingle : Message :=
  { registrationIDs := ["device-token-a"], topic := "", condition := ""
    notification := none, data := [("k", GoValue.str "v")] }

/-- A two-recipient (multicast) message. -/
def msgMulti2 : Message :=
  { registrationIDs := ["device-token-a", "device-token-b"], topic := ""
    condition := "", notification := none, data := [] }

/-- A three-recipient (multicast) message. -/
def msgMulti3 : Message :=
  { registrationIDs := ["device-token-a", "device-token-b", "device-token-c"]
    topic := "", condition := "", notification := none, data := [] }

/-- A message with no addressing information at all. -/
def msgNoTarget : Message :=
  { registrationIDs := [], topic := "", condition := ""
    notification := none, data := [] }

/-- A single-recipient message with a non-string data value. -/
def msgBadData : Message :=
  { registrationIDs := ["device-token-a"], topic := "", condition := ""
    notification := none, data := [("n", GoValue.other 0)] }

/-- A batch outcome for three recipients in which the second fails. -/
def batch3 : BatchResponse :=
  { successCount := 2
    responses := [ { error := none, messageID := "id1" }
                 , { error := some "registration-token-not-registered", messageID := "" }
                 , { error := none, messageID := "id3" } ] }

/-- SDK environment: multicast call succeeds with `batch3`. -/
def sdkEnvMulti3 : SdkEnv :=
  { mkMessaging := Except.ok (), single := ("", none), multi := (some batch3, none) }

/-- SDK environment: multicast call fails at the call level, returning a nil
batch response alongside the error (the realistic SendMulticast failure
shape). -/
def sdkEnvDown : SdkEnv :=
  { mkMessaging := Except.ok (), single := ("", none)
    multi := (none, some "fcm: unavailable") }

/-- SDK environment: single send succeeds with a message identifier. -/
def sdkEnvSingleOk : SdkEnv :=
  { mkMessaging := Except.ok (), single := ("projects/demo/messages/1", none)
    multi := (none, none) }

/-- SDK environment: single send fails. -/
def sdkEnvSingleErr : SdkEnv :=
  { mkMessaging := Except.ok ()
    single := ("", some "registration-token-not-registered")
    multi := (none, none) }

/-- The decoded body of a successful direct-HTTP send. -/
def respOk : Response :=
  { success := 1, failure := 0, results := [], error := none, errorResponseCode := "" }

/-- An API-key client (direct HTTP transport). -/
def cKey : Client :=
  { apiKey := "sample-api-key", httpClient := some (), endpoint := DefaultEndpoint
    app := false, msgClient := false }

/-- The client produced by NewClientWithCredentials on a non-empty path. -/
def cCred : Client :=
  { apiKey := "", httpClient := none, endpoint := DefaultEndpoint
    app := true, msgClient := false }

/-- No-retry environment: marshalling succeeds and the HTTP attempt returns
200 with a decodable body. -/
def envOk : Env :=
  { marshal := Except.ok ()
    outcome := .withStatus 200 "200 OK" (some respOk)
    sdk := sdkEnvSingleOk }

/-- Discriminates a successful transport outcome. -/
def isOkResult : Option (Except FcmError Response) → Bool
  | some (.ok _) => true
  | _ => false

/-! ## Claim theorems -/

/-- C1 (amended): for every multicast send over the SDK transport whose
provider call succeeds, the Response has Success equal to the provider's
per-recipient success count and Failure equal to 0 (not the number of
per-recipient failures), and its Results sequence has exactly one entry per
provider response - one per recipient, in input order, by the provider's
multicast contract - where successful entries carry the message identifier
and failed entries carry the error's message text. -/
theorem sdk_multicast_success_normalization (cached : Bool) (env : SdkEnv)
    (msg : Message) (br : BatchResponse)
    (hmk : cached = true ∨ env.mkMessaging = Except.ok ())
    (hdata : msg.data.all (fun kv => kv.2.isStr) = true)
    (hlen : msg.registrationIDs.length ≠ 1)
    (hmulti : env.multi = (some br, none))
    (hcontract : br.responses.length = msg.registrationIDs.length) :
    sendByApp cached env msg =
      some (some { success := br.successCount, failure := 0
                   results := br.responses.map resultOfSendResponse
                   error := none, errorResponseCode := "" }, none)
    ∧ (br.responses.map resultOfSendResponse).length = msg.registrationIDs.length
    ∧ (∀ i, ∀ hi : i < br.responses.length,
        (br.responses.map resultOfSendResponse).get ⟨i, by simpa using hi⟩ =
          resultOfSendResponse (br.responses.get ⟨i, hi⟩))
    ∧ (∀ sr : SendResponse, sr.error = none →
        resultOfSendResponse sr =
          { error := none, messageID := sr.messageID, errorResponseCode := "" })
    ∧ (∀ sr : SendResponse, ∀ e, sr.error = some e →
        resultOfSendResponse sr =
          { error := some e, messageID := "", errorResponseCode := e }) := by
  have hbr1 : env.multi.1 = some br := by rw [hmulti]
  have hbr2 : env.multi.2 = none := by rw [hmulti]
  refine ⟨?_, ?_, ?_, ?_, ?_⟩
  · have h := sendByApp_multicast cached env msg br hmk hdata hlen hbr1
    rw [hbr2] at h
    simpa using h
  · simp [hcontract]
  · intro i hi
    simp [List.get_eq_getElem, List.getElem_map]
  · intro sr h
    simp [resultOfSendResponse, h]
  · intro sr e h
    simp [resultOfSendResponse, h]

/-- Witness for C1 at three recipients with one per-recipient failure. -/
theorem sdk_multicast_success_normalization_witness :
    sendByApp true sdkEnvMulti3 msgMulti3 =
      some (some { success := 2, failure := 0
                   results := batch3.responses.map resultOfSendResponse
                   error := none, errorResponseCode := "" }, none) :=
  (sdk_multicast_success_normalization true sdkEnvMulti3 msgMulti3 batch3
    (Or.inl rfl) rfl (by decide) rfl (by decide)).1

/-- C1 counterexample: an SDK multicast send to 3 recipients where the
second fails (provider success count 2) returns Failure = 0, not the
per-recipient failure count 1 claimed. -/
theorem sdk_multicast_failure_count_counterexample :
    ((sendByApp true sdkEnvMulti3 msgMulti3).map
        (fun p => p.1.map Response.failure)) = some (some 0)
    ∧ ¬ ((sendByApp true sdkEnvMulti3 msgMulti3).map
        (fun p => p.1.map Response.failure)) = some (some 1)
    ∧ msgMulti3.registrationIDs.length = 3
    ∧ batch3.successCount = 2 :=
  ⟨rfl, by decide, rfl, rfl⟩

/-- C2: a single-recipient SDK send yields, on provider success, a Response
with Success = 1, Failure = 0, a nil Error and the provider's message
identifier stored in the Response's provider-assigned-identifier field; on
provider failure, Success = 0, Failure = 1, and the Error field set to the
provider's error. -/
theorem sdk_single_send_normalization (cached : Bool) (env : SdkEnv) (msg : Message)
    (hmk : cached = true ∨ env.mkMessaging = Except.ok ())
    (hdata : msg.data.all (fun kv => kv.2.isStr) = true)
    (hlen : msg.registrationIDs.length = 1) :
    (∀ msgID, env.single = (msgID, none) →
        sendByApp cached env msg =
          some (some { success := 1, failure := 0, results := [], error := none
                       errorResponseCode := msgID }, none))
    ∧ (∀ r e, env.single = (r, some e) →
        sendByApp cached env msg =
          some (some { success := 0, failure := 1, results := [], error := some e
                       errorResponseCode := r }, some e)) := by
  constructor
  · intro msgID hs
    have h := sendByApp_single cached env msg hmk hdata hlen
    rw [hs] at h
    simpa using h
  · intro r e hs
    have h := sendByApp_single cached env msg hmk hdata hlen
    rw [hs] at h
    simpa using h

/-- Witness for C2: a successful and a failed single-recipient send. -/
theorem sdk_single_send_normalization_witness :
    sendByApp true sdkEnvSingleOk msgSingle =
      some (some { success := 1, failure := 0, results := [], error := none
                   errorResponseCode := "projects/demo/messages/1" }, none)
    ∧ sendByApp true sdkEnvSingleErr msgSingle =
      some (some { success := 0, failure := 1, results := []
                   error := some "registration-token-not-registered"
                   errorResponseCode := "" }, some "registration-token-not-registered") :=
  ⟨(sdk_single_send_normalization true sdkEnvSingleOk msgSingle (Or.inl rfl) rfl rfl).1
      "projects/demo/messages/1" rfl,
   (sdk_single_send_normalization true sdkEnvSingleErr msgSingle (Or.inl rfl) rfl rfl).2
      "" "registration-token-not-registered" rfl⟩

/-- C3 (amended): Responses produced by the SDK transport satisfy: for a
single-recipient send, exactly one of Success and Failure equals 1 and the
other 0; for a multicast send whose provider call succeeds, Success + Failure
equals the provider's success count (Failure being 0), not necessarily the
recipient count; for a multicast send whose provider call fails while still
yielding a batch response, Success + Failure equals the recipient count. -/
theorem response_count_invariant (cached : Bool) (env : SdkEnv) (msg : Message) :
    (∀ resp out, msg.registrationIDs.length = 1 →
        sendByApp cached env msg = some (some resp, out) →
        (resp.success = 1 ∧ resp.failure = 0) ∨ (resp.success = 0 ∧ resp.failure = 1))
    ∧ (∀ resp br, msg.registrationIDs.length ≠ 1 → env.multi = (some br, none) →
        sendByApp cached env msg = some (some resp, none) →
        resp.success + resp.failure = br.successCount)
    ∧ (∀ resp br e, msg.registrationIDs.length ≠ 1 → env.multi = (some br, some e) →
        sendByApp cached env msg = some (some resp, some e) →
        resp.success + resp.failure = msg.registrationIDs.length) := by
  refine ⟨?_, ?_, ?_⟩
  · intro resp out hlen h
    unfold sendByApp at h
    split at h
    · simp at h
    · split at h
      · exact absurd h (by simp)
      · split at h
        · cases henv : env.single.2 with
          | none =>
            rw [henv] at h
            simp only [Option.isSome_none, Bool.false_eq_true, ite_false,
              Option.some.injEq, Prod.mk.injEq] at h
            left
            rw [← h.1]
            exact ⟨rfl, rfl⟩
          | some e =>
            rw [henv] at h
            simp only [Option.isSome_some, ite_true, Option.some.injEq,
              Prod.mk.injEq] at h
            right
            rw [← h.1]
            exact ⟨rfl, rfl⟩
        · omega
  · intro resp br hlen hmulti h
    unfold sendByApp at h
    split at h
    · simp at h
    · split at h
      · exact absurd h (by simp)
      · split at h
        · omega
        · have h1 : env.multi.1 = some br := by rw [hmulti]
          have h2 : env.multi.2 = none := by rw [hmulti]
          rw [h1, h2] at h
          simp only [Option.isSome_none, Bool.false_eq_true, ite_false,
            Option.some.injEq, Prod.mk.injEq] at h
          rw [← h.1]
          rfl
  · intro resp br e hlen hmulti h
    unfold sendByApp at h
    split at h
    · simp at h
    · split at h
      · exact absurd h (by simp)
      · split at h
        · omega
        · have h1 : env.multi.1 = some br := by rw [hmulti]
          have h2 : env.multi.2 = some e := by rw [hmulti]
          rw [h1, h2] at h
          simp only [Option.isSome_some, ite_true, Option.some.injEq,
            Prod.mk.injEq] at h
          rw [← h.1]
          simp

/-- Witness for C3: the single-recipient case at a successful concrete
send. -/
theorem response_count_invariant_witness :
    (({ success := 1, failure := 0, results := [], error := none
        errorResponseCode := "projects/demo/messages/1" } : Response).success = 1
      ∧ ({ success := 1, failure := 0, results := [], error := none
           errorResponseCode := "projects/demo/messages/1" } : Response).failure = 0)
    ∨ (({ success := 1, failure := 0, results := [], error := none
          errorResponseCode := "projects/demo/messages/1" } : Response).success = 0
      ∧ ({ success := 1, failure := 0, results := [], error := none
           errorResponseCode := "projects/demo/messages/1" } : Response).failure = 1) :=
  (response_count_invariant true sdkEnvSingleOk msgSingle).1
    { success := 1, failure := 0, results := [], error := none
      errorResponseCode := "projects/demo/messages/1" } none rfl rfl

/-- C3 counterexample: an SDK multicast send to 3 recipients with one
per-recipient failure yields Success + Failure = 2, not the recipient
count 3 required by the claimed invariant. -/
theorem response_count_invariant_counterexample :
    ((sendByApp true sdkEnvMulti3 msgMulti3).map
        (fun p => p.1.map (fun r => r.success + r.failure))) = some (some 2)
    ∧ ¬ ((sendByApp true sdkEnvMulti3 msgMulti3).map
        (fun p => p.1.map (fun r => r.success + r.failure))) = some (some 3)
    ∧ msgMulti3.registrationIDs.length = 3 :=
  ⟨rfl, by decide, rfl⟩

/-- C4: at the failing input - a multicast send whose provider call fails in
the realistic SDK shape, a nil batch response alongside the error - sendByApp
panics dereferencing the nil batch response in the Results loop instead of
returning the call-level error with Success = 0 and Failure = recipient
count; the claimed counts are produced only in the hypothetical case where a
batch response accompanies the call-level error. -/
theorem sdk_multicast_call_failure_panics :
    sendByApp true sdkEnvDown msgMulti2 = none
    ∧ sendByApp true
        { mkMessaging := Except.ok (), single := ("", none)
          multi := (some { successCount := 0, responses := [] }, some "fcm: unavailable") }
        msgMulti2 =
      some (some { success := 0, failure := 2, results := [], error := none
                   errorResponseCode := "" }, some "fcm: unavailable") :=
  ⟨rfl, rfl⟩

/-- C5: the bounded-retry operations always dispatch to the direct HTTP
transport - the result of SendWithRetryWithContext is independent of the
client's app configuration, so the SDK-mediated path is never taken - and a
client built by NewClientWithCredentials carries a nil HTTP handle, so once
the retry path reaches request execution it dereferences that nil handle
(panics). -/
theorem retry_path_ignores_app_and_nil_handle (path : String)
    (appInit : Except String Unit) (c : Client)
    (hc : NewClientWithCredentials path appInit = Except.ok c)
    (marshal : Except String Unit) (outcomes : Nat → NetOutcome) (n : Int)
    (msg : Message) (hv : msg.Validate = none) (hm : marshal = Except.ok ()) :
    c.httpClient = none
    ∧ (∀ b, SendWithRetryWithContext { c with app := b } marshal outcomes n msg =
          SendWithRetryWithContext c marshal outcomes n msg)
    ∧ SendWithRetryWithContext c marshal outcomes n msg = none := by
  have hcc : c = cCred := by
    unfold NewClientWithCredentials at hc
    split at hc
    · exact absurd hc (by simp)
    · split at hc
      · exact absurd hc (by simp)
      · exact (Except.ok.inj hc).symm
  subst hcc
  subst hm
  refine ⟨rfl, fun b => rfl, ?_⟩
  obtain ⟨f, hf⟩ := retry_fuel_pos n
  have hretry : retry (fun k => send cCred.httpClient (outcomes k)) n = none := by
    unfold retry
    rw [hf]
    exact retryAux_first_panic _ 0 f rfl
  unfold SendWithRetryWithContext
  rw [hv, hretry]

/-- Witness for C5: the retry path of a credentials-built client panics on a
concrete valid message. -/
theorem retry_path_ignores_app_and_nil_handle_witness :
    SendWithRetryWithContext cCred (Except.ok ())
      (fun _ => NetOutcome.noResponse "dial tcp: connection refused") 2 msgSingle = none :=
  (retry_path_ignores_app_and_nil_handle "service-account.json" (Except.ok ()) cCred rfl
    (Except.ok ()) (fun _ => NetOutcome.noResponse "dial tcp: connection refused") 2
    msgSingle rfl rfl).2.2

/-- C6 (amended): the direct HTTP transport treats exactly status 200 as
success - only then is the body decoded directly into the Response structure
and returned without error - while any other 2xx status is treated like any
other sub-500 non-200 status: a plain client error, with no decoding. -/
theorem http_only_200_success :
    (∀ statusText r, send (some ()) (.withStatus 200 statusText (some r)) = some (.ok r))
    ∧ (∀ status statusText d, 200 < status → status < 300 →
        send (some ()) (.withStatus status statusText d) =
          some (.error (.plainError (toString status ++ " error: " ++ statusText)))) := by
  constructor
  · exact send_200
  · intro s st d h1 h2
    exact send_other_status s st d (by omega) (by omega)

/-- Witness for C6: a 200 response decodes; a 204 response errors. -/
theorem http_only_200_success_witness :
    send (some ()) (.withStatus 200 "200 OK" (some respOk)) = some (.ok respOk)
    ∧ send (some ()) (.withStatus 204 "204 No Content" none) =
        some (.error (.plainError "204 error: 204 No Content")) :=
  ⟨http_only_200_success.1 "200 OK" respOk,
   http_only_200_success.2 204 "204 No Content" none (by decide) (by decide)⟩

/-- C6 counterexample: a 201 response - a 2xx status - is not decoded into
the Response; the call returns an error. -/
theorem http_2xx_not_ok_counterexample :
    send (some ()) (.withStatus 201 "201 Created" (some Response.empty)) =
      some (.error (.plainError "201 error: 201 Created"))
    ∧ isOkResult (send (some ()) (.withStatus 201 "201 Created" (some Response.empty))) = false :=
  ⟨rfl, rfl⟩

/-- An operation failing with a retry-eligible ServerError on the first
attempt and a non-retry-eligible error on every later attempt. -/
def opMixed : Nat → Option (Except FcmError Response) := fun k =>
  if k = 0 then some (.error (.serverError "503 error: 503 Service Unavailable"))
  else some (.error (.plainError "400 error: 400 Bad Request"))

/-- C7: the bounded-retry loop performs exactly one execution of the
operation when maxAttempts is at most 1; with maxAttempts = N ≥ 1 and an
operation that always fails with a retry-eligible ServerError it performs
exactly N attempts and returns the last attempt's error; and a
non-retry-eligible error arising on any attempt within the budget - attempt
j, after j earlier attempts that failed with retry-eligible errors - is
returned immediately, the loop having performed exactly j + 1 attempts and
no more, whatever maxAttempts allows. -/
theorem retry_bounded_attempts :
    (∀ (op : Nat → Option (Except FcmError Response)) (m : Int), m ≤ 1 →
        retry op m = Option.map (fun r => (r, 1)) (op 0))
    ∧ (∀ (op : Nat → Option (Except FcmError Response)) (msgs : Nat → String) (N : Int),
        1 ≤ N → (∀ k, op k = some (.error (.serverError (msgs k)))) →
        retry op N = some (.error (.serverError (msgs (N.toNat - 1))), N.toNat))
    ∧ (∀ (op : Nat → Option (Except FcmError Response)) (e : FcmError) (m : Int) (j : Nat),
        (∀ i, i < j → ∃ ei, op i = some (.error ei) ∧ retryEligible ei = true) →
        op j = some (.error e) → retryEligible e = false →
        j < max 1 m.toNat →
        retry op m = some (.error e, j + 1)) := by
  refine ⟨?_, ?_, ?_⟩
  · intro op m hm
    unfold retry
    rw [if_pos hm]
    cases hop : op 0 with
    | none => simp [retryAux, hop]
    | some r =>
      cases r with
      | ok v => simp [retryAux, hop]
      | error e => simp [retryAux, hop]
  · intro op msgs N hN hop
    have hfuel : (if N ≤ 1 then 1 else N.toNat) = (N.toNat - 1) + 1 := by
      split <;> omega
    unfold retry
    rw [hfuel]
    have h := retryAux_always_server op msgs hop (N.toNat - 1) 0
    simp only [Nat.zero_add] at h
    rw [h, show N.toNat - 1 + 1 = N.toNat by omega]
  · intro op e m j hpre hj he hbound
    have hfuel : (if m ≤ 1 then 1 else m.toNat) = max 1 m.toNat := by
      split <;> omega
    unfold retry
    rw [hfuel]
    have h := retryAux_stops_not_eligible op e he j 0 (max 1 m.toNat)
      (by intro i hi; simpa using hpre i hi) (by simpa using hj) hbound
    simpa using h

/-- Witness for C7: one attempt at maxAttempts 0; three attempts of an
always-failing ServerError operation at maxAttempts 3, returning the third
error; immediate return of a first-attempt non-eligible error at
maxAttempts 5; and, with a retry-eligible ServerError on attempt 0 followed
by a non-eligible error on attempt 1, return of that error after exactly two
attempts at maxAttempts 5. -/
theorem retry_bounded_attempts_witness :
    retry (fun _ => some (.ok Response.empty)) 0 = some (.ok Response.empty, 1)
    ∧ retry (fun k => some (.error (.serverError (toString k)))) 3 =
        some (.error (.serverError "2"), 3)
    ∧ retry (fun _ => some (.error (.plainError "400 error: 400 Bad Request"))) 5 =
        some (.error (.plainError "400 error: 400 Bad Request"), 1)
    ∧ retry opMixed 5 =
        some (.error (.plainError "400 error: 400 Bad Request"), 2) :=
  ⟨retry_bounded_attempts.1 (fun _ => some (.ok Response.empty)) 0 (by decide),
   retry_bounded_attempts.2.1 (fun k => some (.error (.serverError (toString k))))
     (fun k => toString k) 3 (by decide) (fun _ => rfl),
   retry_bounded_attempts.2.2 (fun _ => some (.error (.plainError "400 error: 400 Bad Request")))
     (.plainError "400 error: 400 Bad Request") 5 0
     (fun i hi => absurd hi (Nat.not_lt_zero i)) rfl rfl (by decide),
   retry_bounded_attempts.2.2 opMixed (.plainError "400 error: 400 Bad Request") 5 1
     (fun i hi => ⟨.serverError "503 error: 503 Service Unavailable",
       by
         have h0 : i = 0 := Nat.lt_one_iff.mp hi
         subst h0
         exact ⟨rfl, rfl⟩⟩)
     rfl rfl (by decide)⟩

/-- C8: the direct HTTP transport classifies failures from the raw outcome
alone: a transport-layer failure with no response is a ConnectionError
(retry-eligible), a status of 500 or greater is a ServerError
(retry-eligible), and any other non-success status is the plain
client-visible error (not retry-eligible); the classifying function takes
only the attempt's outcome, never retry state. -/
theorem http_error_classification :
    (∀ errMsg, send (some ()) (.noResponse errMsg) =
        some (.error (.connectionError errMsg)))
    ∧ (∀ status statusText d, 500 ≤ status →
        send (some ()) (.withStatus status statusText d) =
          some (.error (.serverError (toString status ++ " error: " ++ statusText))))
    ∧ (∀ status statusText d, status ≠ 200 → status < 500 →
        send (some ()) (.withStatus status statusText d) =
          some (.error (.plainError (toString status ++ " error: " ++ statusText))))
    ∧ (∀ s, retryEligible (.connectionError s) = true ∧
        retryEligible (.serverError s) = true ∧ retryEligible (.plainError s) = false) :=
  ⟨send_no_response, send_5xx, send_other_status, fun _ => ⟨rfl, rfl, rfl⟩⟩

/-- Witness for C8: a 500 response is a ServerError and a 400 response a
plain client error. -/
theorem http_error_classification_witness :
    send (some ()) (.withStatus 500 "500 Internal Server Error" none) =
      some (.error (.serverError "500 error: 500 Internal Server Error"))
    ∧ send (some ()) (.withStatus 400 "400 Bad Request" none) =
      some (.error (.plainError "400 error: 400 Bad Request")) :=
  ⟨http_error_classification.2.1 500 "500 Internal Server Error" none (by decide),
   http_error_classification.2.2.1 400 "400 Bad Request" none (by decide) (by decide)⟩

/-- Counting validation events: a run of httpAttempt events contains no
validation event. -/
theorem count_validate_replicate (k : Nat) :
    (List.replicate k Event.httpAttempt).count Event.validate = 0 := by
  induction k with
  | zero => rfl
  | succ n ih => simp [List.replicate_succ, List.count_cons, ih]

/-- C9: on every send path - send, send-with-context, and both retry
variants, the latter two delegating to the former two - every completed
call's trace begins with the validation event and contains it exactly once
(once per logical send request, not per attempt), and a validation failure
terminates the call at once with a nil Response and the validation error,
before any marshalling or network attempt. -/
theorem validation_first_and_once :
    (∀ c env msg out trace, SendWithContext c env msg = some (out, trace) →
        trace.head? = some Event.validate ∧ trace.count Event.validate = 1)
    ∧ (∀ c env msg e, msg.Validate = some e →
        SendWithContext c env msg =
          some ((none, some (.validationError e)), [Event.validate]))
    ∧ (∀ c marshal outcomes n msg out trace,
        SendWithRetryWithContext c marshal outcomes n msg = some (out, trace) →
        trace.head? = some Event.validate ∧ trace.count Event.validate = 1)
    ∧ (∀ c marshal outcomes n msg e, msg.Validate = some e →
        SendWithRetryWithContext c marshal outcomes n msg =
          some ((none, some (.validationError e)), [Event.validate]))
    ∧ (∀ c env msg, Send c env msg = SendWithContext c env msg)
    ∧ (∀ c marshal outcomes n msg, SendWithRetry c marshal outcomes n msg =
          SendWithRetryWithContext c marshal outcomes n msg) := by
  refine ⟨?_, ?_, ?_, ?_, fun c env msg => rfl, fun c marshal outcomes n msg => rfl⟩
  · intro c env msg out trace h
    rcases SendWithContext_trace c env msg out trace h with h1 | h1 | h1 | h1 <;>
      subst h1 <;> exact ⟨rfl, by decide⟩
  · intro c env msg e hv
    unfold SendWithContext
    rw [hv]
  · intro c marshal outcomes n msg out trace h
    rcases SendWithRetryWithContext_trace c marshal outcomes n msg out trace h with
      h1 | h1 | ⟨k, h1⟩ <;> subst h1
    · exact ⟨rfl, by decide⟩
    · exact ⟨rfl, by decide⟩
    · refine ⟨rfl, ?_⟩
      simp [List.count_cons, count_validate_replicate k]
  · intro c marshal outcomes n msg e hv
    unfold SendWithRetryWithContext
    rw [hv]

/-- Witness for C9: a failing validation terminates a concrete call with the
bare validation trace, and a completed concrete call's trace starts with
validation and contains it once. -/
theorem validation_first_and_once_witness :
    SendWithContext cKey envOk msgNoTarget =
      some ((none, some (.validationError "fcm: invalid message: no target")),
        [Event.validate])
    ∧ ([Event.validate, Event.marshal, Event.httpAttempt].head? = some Event.validate
        ∧ [Event.validate, Event.marshal, Event.httpAttempt].count Event.validate = 1) :=
  ⟨validation_first_and_once.2.1 cKey envOk msgNoTarget
      "fcm: invalid message: no target" rfl,
   validation_first_and_once.1 cKey envOk msgSingle (some respOk, none)
      [Event.validate, Event.marshal, Event.httpAttempt] rfl⟩

/-- C10: the SDK transport's data conversion succeeds exactly when every
data value is a string; the precondition is necessary - a non-string value
makes sendByApp panic on the unchecked `v.(string)` assertion - and
sufficient: with all-string data the send proceeds past the conversion to
the provider call. -/
theorem sdk_data_values_strings :
    (∀ l : List (String × GoValue),
        (convertData l).isSome = l.all (fun kv => kv.2.isStr))
    ∧ (∀ cached env msg, (cached = true ∨ env.mkMessaging = Except.ok ()) →
        msg.data.all (fun kv => kv.2.isStr) = false →
        sendByApp cached env msg = none)
    ∧ (∀ cached env msg br, (cached = true ∨ env.mkMessaging = Except.ok ()) →
        msg.data.all (fun kv => kv.2.isStr) = true →
        (msg.registrationIDs.length = 1 ∨ env.multi.1 = some br) →
        (sendByApp cached env msg).isSome = true) := by
  refine ⟨convertData_isSome, sendByApp_data_panic, ?_⟩
  intro cached env msg br hmk hdata hbranch
  by_cases hlen : msg.registrationIDs.length = 1
  · rw [sendByApp_single cached env msg hmk hdata hlen]
    rfl
  · rcases hbranch with h1 | h2
    · exact absurd h1 hlen
    · rw [sendByApp_multicast cached env msg br hmk hdata hlen h2]
      rfl

/-- Witness for C10: a non-string data value panics a concrete send; an
all-string payload completes it. -/
theorem sdk_data_values_strings_witness :
    sendByApp true sdkEnvSingleOk msgBadData = none
    ∧ (sendByApp true sdkEnvSingleOk msgSingle).isSome = true :=
  ⟨sdk_data_values_strings.2.1 true sdkEnvSingleOk msgBadData (Or.inl rfl) rfl,
   sdk_data_values_strings.2.2 true sdkEnvSingleOk msgSingle batch3 (Or.inl rfl) rfl
     (Or.inl rfl)⟩

end Fcm
